/-
Verification of the service-registry / circuit-breaker implementation
(`service_registry.py`).

The Python source is shallowly embedded: the `CircuitBreaker` class becomes a
Lean structure with explicit state passing (`make_remote_call` returns the
call's observable outcome together with the updated breaker), and the
`ServiceRegistry` class becomes a structure holding the insertion-ordered
association list that models the Python dict `registered_services`, the
tracing counters and the construction-time timestamp.  Python exceptions are
modelled by `Except`-style result types.  Timestamps and counters are `Int`,
matching Python's unbounded integers (the repository only ever adds and
subtracts whole time units).
-/
import Mathlib

/-! ## Circuit breaker (source lines 10-70) -/

/-- `CircuitBreakerState` enum from the source: CLOSED / OPEN / HALF. -/
inductive CircuitBreakerState where
  | CLOSED
  | OPEN
  | HALF_OPEN
deriving DecidableEq

/-- Outcome of the zero-argument callable handed to `make_remote_call`:
either it returns a value or it raises with some message.  The message is
carried here so that theorems can observe that the breaker discards it. -/
inductive CallOutcome where
  | success (v : Int)
  | failure (msg : String)
deriving DecidableEq

/-- Observable result of `make_remote_call`:
`value v` — the callable's result is returned;
`skipped` — the breaker returned `None` because it is OPEN and its cooldown
check failed;
`circuitBreakerRaised` — `raise CircuitBreakerException` (no payload: the
original error's detail is discarded);
`typeErrorRaised` — the `self.timestamp - None` arithmetic in
`handle_reset_state` raises `TypeError` when `last_time_of_failure` was never
set. -/
inductive CBResult where
  | value (v : Int)
  | skipped
  | circuitBreakerRaised
  | typeErrorRaised
deriving DecidableEq

/-- The mutable fields of the Python `CircuitBreaker` object
(source lines 31-37). -/
structure CircuitBreaker where
  threshold : Int
  timeout : Int
  failure_counts : Int
  state : CircuitBreakerState
  last_time_of_failure : Option Int
  timestamp : Int
deriving DecidableEq

/-- `CircuitBreaker.__init__(threshold, timeout)`; `time.time()` at
construction is the explicit parameter `ts`. -/
def mkCircuitBreaker (threshold timeout ts : Int) : CircuitBreaker :=
  { threshold := threshold
    timeout := timeout
    failure_counts := 0
    state := .CLOSED
    last_time_of_failure := none
    timestamp := ts }

/-- `CircuitBreaker.open` (source lines 39-41): note that it records the
breaker's *construction* timestamp, not the current time. -/
def cb_open (b : CircuitBreaker) : CircuitBreaker :=
  { b with state := .OPEN, last_time_of_failure := some b.timestamp }

/-- `CircuitBreaker.close` (source lines 43-45). -/
def cb_close (b : CircuitBreaker) : CircuitBreaker :=
  { b with state := .CLOSED, failure_counts := 0 }

/-- `CircuitBreaker.handle_open_state` (source lines 50-51). -/
def handle_open_state (b : CircuitBreaker) : Bool :=
  b.failure_counts ≥ b.threshold

/-- The `try` block of `make_remote_call` (source lines 61-70): run the
callable; on success close the breaker if it was HALF_OPEN and return the
value; on failure increment `failure_counts`, trip OPEN once the threshold is
reached, and raise `CircuitBreakerException` (discarding the message). -/
def attempt_call (b : CircuitBreaker) (func : CallOutcome) :
    CBResult × CircuitBreaker :=
  match func with
  | .success v =>
      if b.state = .HALF_OPEN then (.value v, cb_close b) else (.value v, b)
  | .failure _ =>
      let b1 : CircuitBreaker := { b with failure_counts := b.failure_counts + 1 }
      if handle_open_state b1 then (.circuitBreakerRaised, cb_open b1)
      else (.circuitBreakerRaised, b1)

/-- `CircuitBreaker.make_remote_call` (source lines 56-70).  In the OPEN
state the cooldown check is `handle_reset_state`, i.e.
`self.timestamp - self.last_time_of_failure >= self.timeout` — the stored
construction timestamp, not the current clock. -/
def make_remote_call (b : CircuitBreaker) (func : CallOutcome) :
    CBResult × CircuitBreaker :=
  if b.state = .OPEN then
    match b.last_time_of_failure with
    | none => (.typeErrorRaised, b)
    | some t =>
        if b.timestamp - t ≥ b.timeout then attempt_call b func
        else (.skipped, b)
  else attempt_call b func

/-- Thread a breaker through a list of call outcomes, keeping only the final
breaker state. -/
def run_calls (b : CircuitBreaker) (ops : List CallOutcome) : CircuitBreaker :=
  ops.foldl (fun b o => (make_remote_call b o).2) b

/-! ## Service registry (source lines 87-307) -/

/-- `ServiceRegistryState` enum from the source. -/
inductive ServiceRegistryState where
  | STARTING
  | AVAILABLE
  | DOWN
deriving DecidableEq

/-- One value of the `registered_services` dict (source lines 119-126):
the per-service record created by `register_services`. -/
structure ServiceEntry where
  url : String
  service_name : String
  assigned : Bool
  assigned_service : Option String
  healthy : Bool
  availability : ServiceRegistryState
deriving DecidableEq

/-- The `service_tracing` dict (source lines 92-97). -/
structure ServiceTracing where
  total_requests : Int
  successful_requests : Int
  failure_requests : Int
  duration : Int
deriving DecidableEq

/-- The mutable fields of a `ServiceRegistry` object (source lines 88-98).
The Python dict `registered_services` is modelled as an insertion-ordered
association list with unique keys; `timestamp` is the `time.time()` value
captured once at construction. -/
structure ServiceRegistry where
  registered_services : List (String × ServiceEntry)
  health_check_interval : Int
  service_tracing : ServiceTracing
  timestamp : Int
deriving DecidableEq

/-- `ServiceRegistry.__init__` (source lines 88-98) with the construction
time as explicit parameter. -/
def mkServiceRegistry (ts : Int) : ServiceRegistry :=
  { registered_services := []
    health_check_interval := 5
    service_tracing := ⟨0, 0, 0, 0⟩
    timestamp := ts }

/-- Errors raised by the registry: the two `ValueError` messages of
`get_service` / `deregister_service`, and the `TypeError` Python raises when
an unhashable value is used in a dict membership test. -/
inductive PyError where
  | unknownService
  | unhealthyService
  | typeError
deriving DecidableEq

/-- Dict lookup `registered_services[name]` / membership, first-match on the
association list (keys are unique, as in a Python dict). -/
def lookup_service : List (String × ServiceEntry) → String → Option ServiceEntry
  | [], _ => none
  | (k, e) :: rest, n => if k = n then some e else lookup_service rest n

/-- `del registered_services[name]` on the association-list model. -/
def remove_service_list :
    List (String × ServiceEntry) → String → List (String × ServiceEntry)
  | [], _ => []
  | (k, e) :: rest, n =>
      if k = n then remove_service_list rest n
      else (k, e) :: remove_service_list rest n

/-- `registered_services[name]["availability"] = v` on the model. -/
def set_availability_list :
    List (String × ServiceEntry) → String → ServiceRegistryState →
    List (String × ServiceEntry)
  | [], _, _ => []
  | (k, e) :: rest, n, v =>
      if k = n then (k, { e with availability := v }) :: set_availability_list rest n v
      else (k, e) :: set_availability_list rest n v

def lookupService (r : ServiceRegistry) (n : String) : Option ServiceEntry :=
  lookup_service r.registered_services n

/-- `name in self.registered_services`. -/
def containsService (r : ServiceRegistry) (n : String) : Bool :=
  (lookupService r n).isSome

def removeService (r : ServiceRegistry) (n : String) : ServiceRegistry :=
  { r with registered_services := remove_service_list r.registered_services n }

def set_availability (r : ServiceRegistry) (n : String)
    (v : ServiceRegistryState) : ServiceRegistry :=
  { r with registered_services := set_availability_list r.registered_services n v }

/-- `ServiceRegistry.get_service` (source lines 129-136): strict lookup,
`ValueError` ("not registered" — UnknownServiceError) when absent,
`ValueError` ("not healthy" — UnhealthyServiceError) when unhealthy. -/
def get_service (r : ServiceRegistry) (n : String) : Except PyError String :=
  match lookupService r n with
  | none => .error .unknownService
  | some e => if e.healthy then .ok e.url else .error .unhealthyService

/-- `ServiceRegistry._get_service_name_url` (source lines 161-164): the url
when registered, `None` otherwise. -/
def _get_service_name_url (r : ServiceRegistry) (n : String) : Option String :=
  match lookupService r n with
  | some e => some e.url
  | none => none

/-- The first branch of `get_available_services` passes the stored
`assigned_service` value — possibly `None` — to `_get_service_name_url`; a
`None` argument fails the dict membership test (so the result is `None`). -/
def get_assigned_url (r : ServiceRegistry) : Option String → Option String
  | none => none
  | some a => _get_service_name_url r a

/-- The `[name for name, data in ... if data["availability"] == AVAILABLE]`
comprehension of `get_available_services` (source lines 178-182). -/
def available_names : List (String × ServiceEntry) → List String
  | [] => []
  | (k, e) :: rest =>
      if e.availability = .AVAILABLE then k :: available_names rest
      else available_names rest

/-- The fallback scan of `get_available_services` (source lines 178-189).
When the comprehension is non-empty the source passes the whole *list* to
`_get_service_name_url`, whose membership test
`service_name in self.registered_services` hashes the argument; a list is
unhashable, so Python raises `TypeError` there.  When it is empty the
function returns `None`. -/
def available_fallback (r : ServiceRegistry) : Except PyError (Option String) :=
  match available_names r.registered_services with
  | [] => .ok none
  | _ :: _ => .error .typeError

/-- `ServiceRegistry.get_available_services` (source lines 166-189). -/
def get_available_services (r : ServiceRegistry) (n : String) :
    Except PyError (Option String) :=
  match lookupService r n with
  | some e =>
      if e.assigned then .ok (get_assigned_url r e.assigned_service)
      else if e.healthy then .ok (_get_service_name_url r n)
      else available_fallback r
  | none => available_fallback r

/-- `ServiceRegistry.deregister_service` (source lines 251-257). -/
def deregister_service (r : ServiceRegistry) (n : String) :
    Except PyError ServiceRegistry :=
  if containsService r n then .ok (removeService r n)
  else .error .unknownService

/-- `ServiceRegistry.gracefully_shutdown` (source lines 191-196): guarded by
a membership test; when the name is present it sets availability to DOWN and
then calls `deregister_service`; when absent the body is skipped and the
method returns normally. -/
def gracefully_shutdown (r : ServiceRegistry) (n : String) :
    Except PyError ServiceRegistry :=
  if containsService r n then
    deregister_service (set_availability r n .DOWN) n
  else .ok r

/-- The `response.status_code == 200` branch of
`ServiceRegistry._simulate_health_check` (source lines 217-229): the update
applied to the probed entry on a successful "healthy" probe. -/
def health_check_on_200 (e : ServiceEntry) : ServiceEntry :=
  if e.healthy then { e with availability := .AVAILABLE, healthy := true }
  else { e with availability := .DOWN, healthy := false }

/-- `ServiceRegistry.trace_service_request` (source lines 282-307).  Both
`start_time` and `end_time` read `self.timestamp`, the value captured at
registry construction, so `duration = end_time - start_time`.  The simulated
body always sets `success = True`, so the `finally` block bumps
`total_requests` and `successful_requests` and adds `duration` to the
cumulative counter. -/
def trace_service_request (r : ServiceRegistry) (n : String) :
    Except PyError ServiceRegistry :=
  let start_time := r.timestamp
  if containsService r n = false then .error .unknownService
  else
    let end_time := r.timestamp
    let duration := end_time - start_time
    .ok { r with service_tracing :=
      { r.service_tracing with
          total_requests := r.service_tracing.total_requests + 1
          successful_requests := r.service_tracing.successful_requests + 1
          duration := r.service_tracing.duration + duration } }

deriving instance DecidableEq for Except

/-! ## Concrete states used by counterexamples and witnesses -/

/-- A registered entry that is healthy and AVAILABLE. -/
def entryA : ServiceEntry :=
  { url := "http://a", service_name := "A", assigned := false,
    assigned_service := none, healthy := true, availability := .AVAILABLE }

/-- A registry holding only `entryA` under the key "A". -/
def regOneAvailable : ServiceRegistry :=
  { registered_services := [("A", entryA)]
    health_check_interval := 5
    service_tracing := ⟨0, 0, 0, 0⟩
    timestamp := 0 }

/-- An entry whose probe loop has marked it unhealthy while its availability
is still AVAILABLE. -/
def entryB : ServiceEntry :=
  { url := "http://b", service_name := "B", assigned := false,
    assigned_service := none, healthy := false, availability := .AVAILABLE }

/-- A registry holding only the unhealthy-but-AVAILABLE `entryB`. -/
def regUnhealthyAvailable : ServiceRegistry :=
  { registered_services := [("B", entryB)]
    health_check_interval := 5
    service_tracing := ⟨0, 0, 0, 0⟩
    timestamp := 0 }

/-- The breaker state reached from `mkCircuitBreaker 3 5 0` after three
consecutive failing calls: OPEN with `last_time_of_failure` equal to the
construction timestamp. -/
def cbOpenAt0 : CircuitBreaker :=
  { threshold := 3, timeout := 5, failure_counts := 3, state := .OPEN,
    last_time_of_failure := some 0, timestamp := 0 }

/-- A breaker that an operator has explicitly moved to HALF_OPEN. -/
def cbHalfOpen : CircuitBreaker :=
  { threshold := 3, timeout := 5, failure_counts := 2, state := .HALF_OPEN,
    last_time_of_failure := none, timestamp := 0 }

/-! ## Helper lemmas about the association-list registry -/

theorem lookup_set_availability_isSome (l : List (String × ServiceEntry))
    (n : String) (v : ServiceRegistryState) :
    (lookup_service (set_availability_list l n v) n).isSome =
      (lookup_service l n).isSome := by
  induction l with
  | nil => rfl
  | cons p rest ih =>
      obtain ⟨k, e⟩ := p
      by_cases h : k = n <;>
        simp [set_availability_list, lookup_service, h, ih]

theorem remove_set_availability_list (l : List (String × ServiceEntry))
    (n : String) (v : ServiceRegistryState) :
    remove_service_list (set_availability_list l n v) n =
      remove_service_list l n := by
  induction l with
  | nil => rfl
  | cons p rest ih =>
      obtain ⟨k, e⟩ := p
      by_cases h : k = n <;>
        simp [set_availability_list, remove_service_list, h, ih]

theorem remove_service_list_of_lookup_none (l : List (String × ServiceEntry))
    (n : String) (h : lookup_service l n = none) :
    remove_service_list l n = l := by
  induction l with
  | nil => rfl
  | cons p rest ih =>
      obtain ⟨k, e⟩ := p
      by_cases hk : k = n
      · simp [lookup_service, hk] at h
      · simp [lookup_service, hk] at h
        simp [remove_service_list, hk, ih h]

theorem attempt_call_success_eq (b : CircuitBreaker) (v : Int) :
    attempt_call b (.success v) =
      if b.state = .HALF_OPEN then (.value v, cb_close b) else (.value v, b) :=
  rfl

theorem attempt_call_failure_eq (b : CircuitBreaker) (m : String) :
    attempt_call b (.failure m) =
      if b.threshold ≤ b.failure_counts + 1 then
        (.circuitBreakerRaised, cb_open { b with failure_counts := b.failure_counts + 1 })
      else (.circuitBreakerRaised, { b with failure_counts := b.failure_counts + 1 }) := by
  simp [attempt_call, handle_open_state, ge_iff_le]

theorem attempt_call_failure_fst (b : CircuitBreaker) (m : String) :
    (attempt_call b (.failure m)).1 = .circuitBreakerRaised := by
  rw [attempt_call_failure_eq]
  split <;> rfl

/-! ## Claim theorems -/

/-- C1: evaluation of the code at the failing input.  The claim's first two
resolution steps match the source, but the final step does not: when the
fallback scan finds at least one AVAILABLE entry, the source passes the whole
comprehension list (here `["A"]`) to `_get_service_name_url`, whose dict
membership test hashes the unhashable list and raises `TypeError` — instead
of returning the URL of the first AVAILABLE entry (`"http://a"`). -/
theorem c1_fallback_raises_type_error :
    get_available_services regOneAvailable "X" = .error .typeError
    ∧ available_names regOneAvailable.registered_services = ["A"]
    ∧ _get_service_name_url regOneAvailable "A" = some "http://a" := by
  decide

/-- C2: evaluation of the code at the failing input.  `get_available_services`
is claimed never to raise, but querying the registered, unassigned, unhealthy
entry "B" while some entry has availability AVAILABLE reaches the fallback
scan, which raises `TypeError` (the scan's result list is passed to the dict
membership test of `_get_service_name_url`). -/
theorem c2_get_available_services_raises :
    get_available_services regUnhealthyAvailable "B" = .error .typeError := by
  decide

/-- C3 counterexample: the cooldown check of `make_remote_call` does not use
the current time.  `cbOpenAt0` is the breaker reached from
`mkCircuitBreaker 3 5 0` by three failing calls; at a current time of 10 the
claim's condition `now - lastFailureTime >= timeout` (10 - 0 >= 5) holds, so
the claim says the operation is attempted — but the code compares the stored
construction timestamp (0 - 0 >= 5 fails) and skips the call. -/
theorem c3_counterexample :
    run_calls (mkCircuitBreaker 3 5 0)
      [.failure "a", .failure "b", .failure "c"] = cbOpenAt0
    ∧ cbOpenAt0.state = .OPEN
    ∧ (10 : Int) - 0 ≥ cbOpenAt0.timeout
    ∧ make_remote_call cbOpenAt0 (.success 42) = (.skipped, cbOpenAt0) := by
  decide

/-- C3 amended: for a breaker in OPEN with `last_time_of_failure = some t`,
`make_remote_call` checks `timestamp - t >= timeout` where `timestamp` is the
construction-time stamp stored in the breaker, not the current time.  If the
check fails it returns "no result" without invoking the operation (the result
is `skipped` for every operation) and without mutating any field; if it
passes, the operation is attempted (a success returns its value, a failure
raises the breaker failure signal). -/
theorem c3_cooldown_uses_stored_timestamp (b : CircuitBreaker) (t : Int)
    (h1 : b.state = .OPEN) (h2 : b.last_time_of_failure = some t) :
    (b.timestamp - t < b.timeout → ∀ o, make_remote_call b o = (.skipped, b))
    ∧ (b.timeout ≤ b.timestamp - t → ∀ v,
        (make_remote_call b (.success v)).1 = .value v)
    ∧ (b.timeout ≤ b.timestamp - t → ∀ m,
        (make_remote_call b (.failure m)).1 = .circuitBreakerRaised) := by
  refine ⟨?_, ?_, ?_⟩
  · intro h o
    simp [make_remote_call, h1, h2, not_le.mpr h]
  · intro h v
    simp [make_remote_call, attempt_call, h1, h2, h]
  · intro h m
    simp [make_remote_call, h1, h2, h, attempt_call_failure_fst]

/-- C3 witness: applying the amended theorem to the concrete OPEN breaker
`cbOpenAt0`, whose cooldown check `0 - 0 >= 5` fails, so the call is
skipped. -/
theorem c3_cooldown_witness :
    make_remote_call cbOpenAt0 (.success 1) = (.skipped, cbOpenAt0) :=
  (c3_cooldown_uses_stored_timestamp cbOpenAt0 0 rfl rfl).1 (by decide)
    (.success 1)

/-- C4: a breaker built with threshold 3 and timeout `tmo` at time `ts`:
each failing call increments `failure_counts` and surfaces as the
detail-free breaker failure signal; the third failure trips OPEN and records
`last_time_of_failure`; and a fourth call made at any time `now` before the
timeout has elapsed is skipped, returning "no result" and leaving the breaker
(in particular `failure_counts`) unchanged. -/
theorem c4_threshold_three_trip (ts tmo now : Int) (h1 : ts ≤ now)
    (h2 : now < ts + tmo) :
    (make_remote_call (mkCircuitBreaker 3 tmo ts) (.failure "e1")).1 =
        .circuitBreakerRaised
    ∧ (run_calls (mkCircuitBreaker 3 tmo ts) [.failure "e1"]).failure_counts = 1
    ∧ (run_calls (mkCircuitBreaker 3 tmo ts) [.failure "e1"]).state = .CLOSED
    ∧ (make_remote_call (run_calls (mkCircuitBreaker 3 tmo ts) [.failure "e1"])
        (.failure "e2")).1 = .circuitBreakerRaised
    ∧ (run_calls (mkCircuitBreaker 3 tmo ts)
        [.failure "e1", .failure "e2"]).failure_counts = 2
    ∧ (run_calls (mkCircuitBreaker 3 tmo ts)
        [.failure "e1", .failure "e2"]).state = .CLOSED
    ∧ (make_remote_call (run_calls (mkCircuitBreaker 3 tmo ts)
        [.failure "e1", .failure "e2"]) (.failure "e3")).1 = .circuitBreakerRaised
    ∧ (run_calls (mkCircuitBreaker 3 tmo ts)
        [.failure "e1", .failure "e2", .failure "e3"]).failure_counts = 3
    ∧ (run_calls (mkCircuitBreaker 3 tmo ts)
        [.failure "e1", .failure "e2", .failure "e3"]).state = .OPEN
    ∧ (run_calls (mkCircuitBreaker 3 tmo ts)
        [.failure "e1", .failure "e2", .failure "e3"]).last_time_of_failure =
        some ts
    ∧ (∀ o, make_remote_call (run_calls (mkCircuitBreaker 3 tmo ts)
        [.failure "e1", .failure "e2", .failure "e3"]) o =
        (.skipped, run_calls (mkCircuitBreaker 3 tmo ts)
          [.failure "e1", .failure "e2", .failure "e3"])) := by
  have hs1 : make_remote_call (mkCircuitBreaker 3 tmo ts) (.failure "e1") =
      (.circuitBreakerRaised,
        { threshold := 3, timeout := tmo, failure_counts := 1, state := .CLOSED,
          last_time_of_failure := none, timestamp := ts }) := by
    simp [make_remote_call, attempt_call_failure_eq, mkCircuitBreaker]
  have hs2 : make_remote_call
      ({ threshold := 3, timeout := tmo, failure_counts := 1, state := .CLOSED,
         last_time_of_failure := none, timestamp := ts } : CircuitBreaker)
      (.failure "e2") =
      (.circuitBreakerRaised,
        { threshold := 3, timeout := tmo, failure_counts := 2, state := .CLOSED,
          last_time_of_failure := none, timestamp := ts }) := by
    simp [make_remote_call, attempt_call_failure_eq]
  have hs3 : make_remote_call
      ({ threshold := 3, timeout := tmo, failure_counts := 2, state := .CLOSED,
         last_time_of_failure := none, timestamp := ts } : CircuitBreaker)
      (.failure "e3") =
      (.circuitBreakerRaised,
        { threshold := 3, timeout := tmo, failure_counts := 3, state := .OPEN,
          last_time_of_failure := some ts, timestamp := ts }) := by
    simp [make_remote_call, attempt_call_failure_eq, cb_open]
  have hb1 : run_calls (mkCircuitBreaker 3 tmo ts) [.failure "e1"] =
      { threshold := 3, timeout := tmo, failure_counts := 1, state := .CLOSED,
        last_time_of_failure := none, timestamp := ts } := by
    simp [run_calls, hs1]
  have hb2 : run_calls (mkCircuitBreaker 3 tmo ts)
      [.failure "e1", .failure "e2"] =
      { threshold := 3, timeout := tmo, failure_counts := 2, state := .CLOSED,
        last_time_of_failure := none, timestamp := ts } := by
    simp [run_calls, hs1, hs2]
  have hb3 : run_calls (mkCircuitBreaker 3 tmo ts)
      [.failure "e1", .failure "e2", .failure "e3"] =
      { threshold := 3, timeout := tmo, failure_counts := 3, state := .OPEN,
        last_time_of_failure := some ts, timestamp := ts } := by
    simp [run_calls, hs1, hs2, hs3]
  refine ⟨?_, ?_, ?_, ?_, ?_, ?_, ?_, ?_, ?_, ?_, ?_⟩
  · simp [hs1]
  · simp [hb1]
  · simp [hb1]
  · simp [hb1, hs2]
  · simp [hb2]
  · simp [hb2]
  · simp [hb2, hs3]
  · simp [hb3]
  · simp [hb3]
  · simp [hb3]
  · intro o
    rw [hb3]
    simp [make_remote_call]
    omega

/-- C4 witness: the theorem instantiated at `ts = 0`, `tmo = 5`, `now = 0`:
in particular the third failing call leaves the breaker OPEN and a fourth
call is skipped without changing the breaker. -/
theorem c4_threshold_three_trip_witness :
    (0 : Int) ≤ 0 ∧ (0 : Int) < 0 + 5 ∧
    ((run_calls (mkCircuitBreaker 3 5 0)
        [.failure "e1", .failure "e2", .failure "e3"]).state = .OPEN
      ∧ make_remote_call (run_calls (mkCircuitBreaker 3 5 0)
          [.failure "e1", .failure "e2", .failure "e3"]) (.failure "e4") =
        (.skipped, run_calls (mkCircuitBreaker 3 5 0)
          [.failure "e1", .failure "e2", .failure "e3"])) :=
  ⟨by decide, by decide,
    (c4_threshold_three_trip 0 5 0 (by decide) (by decide)).2.2.2.2.2.2.2.2.1,
    (c4_threshold_three_trip 0 5 0 (by decide)
      (by decide)).2.2.2.2.2.2.2.2.2.2 (.failure "e4")⟩

/-- C5 counterexample: with threshold 3, the call trace
fail, fail, success, fail drives the breaker from its initial state to OPEN,
although the last three recorded outcomes contain a success — the claim that
failures separated by an intervening successful call do not accumulate is
false, because a success while CLOSED does not reset `failure_counts` (after
fail, fail, success the count is still 2). -/
theorem c5_counterexample :
    (run_calls (mkCircuitBreaker 3 5 0)
      [.failure "e1", .failure "e2", .success 7, .failure "e3"]).state = .OPEN
    ∧ (run_calls (mkCircuitBreaker 3 5 0)
      [.failure "e1", .failure "e2", .success 7]).failure_counts = 2 := by
  decide

/-- C5 amended: for a breaker in CLOSED, a successful call changes nothing
(in particular it does not reset `failure_counts`, so failures separated by
successes keep accumulating), a failing call increments `failure_counts` by
one, and the failing call trips OPEN exactly when the incremented count
reaches the threshold — regardless of whether the recorded failures were
consecutive. -/
theorem c5_failures_accumulate_across_successes (b : CircuitBreaker)
    (h : b.state = .CLOSED) :
    (∀ v, make_remote_call b (.success v) = (.value v, b))
    ∧ (∀ m, (make_remote_call b (.failure m)).2.failure_counts =
        b.failure_counts + 1)
    ∧ (∀ m, ((make_remote_call b (.failure m)).2.state = .OPEN ↔
        b.threshold ≤ b.failure_counts + 1)) := by
  refine ⟨?_, ?_, ?_⟩
  · intro v
    simp [make_remote_call, attempt_call_success_eq, h]
  · intro m
    rcases le_or_lt b.threshold (b.failure_counts + 1) with hth | hth
    · simp [make_remote_call, attempt_call_failure_eq, h, hth, cb_open]
    · simp [make_remote_call, attempt_call_failure_eq, h, not_le.mpr hth]
  · intro m
    rcases le_or_lt b.threshold (b.failure_counts + 1) with hth | hth
    · simp [make_remote_call, attempt_call_failure_eq, h, hth, cb_open]
    · simp [make_remote_call, attempt_call_failure_eq, h, not_le.mpr hth]

/-- C5 witness: a successful call on a fresh CLOSED breaker returns its value
and leaves the breaker unchanged. -/
theorem c5_accumulate_witness :
    make_remote_call (mkCircuitBreaker 3 5 0) (.success 7) =
      (.value 7, mkCircuitBreaker 3 5 0) :=
  (c5_failures_accumulate_across_successes (mkCircuitBreaker 3 5 0) rfl).1 7

/-- C6: a breaker in HALF_OPEN that receives one successful call returns the
operation's result and transitions to CLOSED with `failure_counts = 0`. -/
theorem c6_half_open_success_closes (b : CircuitBreaker) (v : Int)
    (h : b.state = .HALF_OPEN) :
    (make_remote_call b (.success v)).1 = .value v
    ∧ (make_remote_call b (.success v)).2.state = .CLOSED
    ∧ (make_remote_call b (.success v)).2.failure_counts = 0 := by
  simp [make_remote_call, attempt_call, h, cb_close]

/-- C6 witness: the theorem at the concrete HALF_OPEN breaker. -/
theorem c6_half_open_witness :
    (make_remote_call cbHalfOpen (.success 9)).1 = .value 9
    ∧ (make_remote_call cbHalfOpen (.success 9)).2.state = .CLOSED
    ∧ (make_remote_call cbHalfOpen (.success 9)).2.failure_counts = 0 :=
  c6_half_open_success_closes cbHalfOpen 9 rfl

/-- C7: the status-200 branch of the health probe sets availability to
AVAILABLE when the entry was already healthy and to DOWN when it was not,
leaves the `healthy` flag exactly as it was (true stays true, false is
re-assigned false), and touches no other field. -/
theorem c7_probe_200_update (e : ServiceEntry) :
    (health_check_on_200 e).availability =
      (if e.healthy then ServiceRegistryState.AVAILABLE else .DOWN)
    ∧ (health_check_on_200 e).healthy = e.healthy
    ∧ (health_check_on_200 e).url = e.url
    ∧ (health_check_on_200 e).service_name = e.service_name
    ∧ (health_check_on_200 e).assigned = e.assigned
    ∧ (health_check_on_200 e).assigned_service = e.assigned_service := by
  unfold health_check_on_200
  by_cases h : e.healthy <;> simp [h]

/-- C8 counterexample: `gracefully_shutdown` on a name that is not registered
is a silent no-op, not an `UnknownServiceError`: the membership guard means
the deregister step never runs, so the registry is returned unchanged and no
error is raised. -/
theorem c8_shutdown_unregistered_noop :
    gracefully_shutdown regOneAvailable "ghost" = .ok regOneAvailable
    ∧ gracefully_shutdown regOneAvailable "ghost" ≠ .error .unknownService := by
  decide

/-- C8 amended: `gracefully_shutdown` never fails.  On a registered name it
sets the entry's availability to DOWN and then deregisters it, so the result
is the registry with the entry removed; on an unregistered name the guard
skips the body, which coincides with removing nothing. -/
theorem c8_shutdown_removes_entry (r : ServiceRegistry) (n : String) :
    gracefully_shutdown r n = .ok (removeService r n) := by
  unfold gracefully_shutdown deregister_service
  by_cases h : containsService r n
  · have hc : containsService (set_availability r n .DOWN) n = true := by
      simpa [containsService, lookupService, set_availability,
        lookup_set_availability_isSome] using h
    simp only [h, if_true, hc]
    simp [removeService, set_availability, remove_set_availability_list]
  · have hn : lookup_service r.registered_services n = none := by
      cases hl : lookup_service r.registered_services n with
      | none => rfl
      | some e =>
          exact absurd (by simp [containsService, lookupService, hl]) h
    simp only [h]
    simp [removeService, remove_service_list_of_lookup_none _ _ hn]

/-- C9: `get_service` fails with `UnknownServiceError` exactly when the name
is not registered, fails with `UnhealthyServiceError` exactly when the name
is registered with `healthy = false`, returns the entry's own URL when it is
registered and healthy, and never returns a URL for an entry that is
unhealthy at call time. -/
theorem c9_get_service_strict (r : ServiceRegistry) (n : String) :
    (get_service r n = .error .unknownService ↔ lookupService r n = none)
    ∧ (get_service r n = .error .unhealthyService ↔
        ∃ e, lookupService r n = some e ∧ e.healthy = false)
    ∧ (∀ e, lookupService r n = some e → e.healthy = true →
        get_service r n = .ok e.url)
    ∧ (∀ u, get_service r n = .ok u →
        ∃ e, lookupService r n = some e ∧ e.healthy = true ∧ u = e.url) := by
  unfold get_service
  cases hl : lookupService r n with
  | none => simp
  | some e =>
      by_cases h : e.healthy <;> simp [h]

/-- C9 witness: the theorem at the concrete registry, where "A" is registered
and healthy, so `get_service` returns its URL. -/
theorem c9_get_service_witness :
    get_service regOneAvailable "A" = .ok entryA.url :=
  (c9_get_service_strict regOneAvailable "A").2.2.1 entryA rfl rfl

/-- C10: a traced request on a registered name bumps `total_requests` and
`successful_requests` each by exactly one, leaves `failure_requests`
untouched, and adds `timestamp - timestamp = 0` to the cumulative duration
counter (start and end time are both the construction-time stamp), so the
duration counter never moves. -/
theorem c10_trace_adds_zero_duration (r : ServiceRegistry) (n : String)
    (h : containsService r n = true) :
    ∃ r', trace_service_request r n = .ok r'
      ∧ r'.service_tracing.total_requests =
          r.service_tracing.total_requests + 1
      ∧ r'.service_tracing.successful_requests =
          r.service_tracing.successful_requests + 1
      ∧ r'.service_tracing.failure_requests =
          r.service_tracing.failure_requests
      ∧ r'.service_tracing.duration =
          r.service_tracing.duration + (r.timestamp - r.timestamp)
      ∧ r'.service_tracing.duration = r.service_tracing.duration
      ∧ r'.registered_services = r.registered_services
      ∧ r'.timestamp = r.timestamp := by
  have hr : trace_service_request r n = .ok { r with service_tracing :=
      { r.service_tracing with
          total_requests := r.service_tracing.total_requests + 1
          successful_requests := r.service_tracing.successful_requests + 1
          duration := r.service_tracing.duration +
            (r.timestamp - r.timestamp) } } := by
    unfold trace_service_request
    simp [h]
  exact ⟨_, hr, rfl, rfl, rfl, rfl, by simp, rfl, rfl⟩

/-- C10 witness: the theorem at the concrete registry and its registered
name "A". -/
theorem c10_trace_witness :
    containsService regOneAvailable "A" = true ∧
    (∃ r', trace_service_request regOneAvailable "A" = .ok r'
      ∧ r'.service_tracing.total_requests =
          regOneAvailable.service_tracing.total_requests + 1
      ∧ r'.service_tracing.successful_requests =
          regOneAvailable.service_tracing.successful_requests + 1
      ∧ r'.service_tracing.failure_requests =
          regOneAvailable.service_tracing.failure_requests
      ∧ r'.service_tracing.duration =
          regOneAvailable.service_tracing.duration +
            (regOneAvailable.timestamp - regOneAvailable.timestamp)
      ∧ r'.service_tracing.duration = regOneAvailable.service_tracing.duration
      ∧ r'.registered_services = regOneAvailable.registered_services
      ∧ r'.timestamp = regOneAvailable.timestamp) :=
  ⟨by decide, c10_trace_adds_zero_duration regOneAvailable "A" (by decide)⟩
